import Mathlib

/-!
Verification of the notification microservice's message-intake pipeline:
validator, dispatcher (retry + timeout), consumer loop, HTML body handling
and lifecycle shutdown, shallowly embedded from the JavaScript source
(`consumers/notificationConsumer.js`, `services/emailService.js`,
`index.js`).
-/

namespace Notif

/-- A JavaScript runtime value, as far as the pipeline distinguishes them.
Strings are kept as character lists; numbers, booleans, `null`, plain
objects and arrays are the other shapes the validator can receive. -/
inductive JSValue where
  | str (s : List Char)
  | num (n : Int)
  | jsBool (b : Bool)
  | jsNull
  | obj
  | arr
deriving DecidableEq

/-- JavaScript truthiness of a value: `""`, `0`, `false` and `null` are
falsy; every object and array (even empty) is truthy. -/
def truthy : JSValue → Bool
  | .str s => !s.isEmpty
  | .num n => n != 0
  | .jsBool b => b
  | .jsNull => false
  | .obj => true
  | .arr => true

/-- Whether a JavaScript value has `typeof v === "string"`. -/
def isStrVal : JSValue → Bool
  | .str _ => true
  | _ => false

/-- JavaScript `String.prototype.trim()`: drop leading and trailing
whitespace. -/
def strTrim (s : List Char) : List Char :=
  ((s.dropWhile Char.isWhitespace).reverse.dropWhile Char.isWhitespace).reverse

/-- A character allowed in each segment of the address regex
`^[^\s@]+@[^\s@]+\.[^\s@]+$`: not whitespace and not `@`. -/
def addrChar (c : Char) : Bool :=
  !c.isWhitespace && c != '@'

/-- Whether the list has a `.` that is not its last element (used for the
`[^\s@]+\.[^\s@]+` suffix: a dot with at least one character after it). -/
def hasDotNotLast : List Char → Bool
  | [] => false
  | [_] => false
  | '.' :: _ :: _ => true
  | _ :: rest => hasDotNotLast rest

/-- Whether a list matches `[^\s@]+\.[^\s@]+` once its characters are
already known to be address characters: at least one character, then a
dot, then at least one character. -/
def hasInnerDot : List Char → Bool
  | [] => false
  | _ :: rest => hasDotNotLast rest

/-- The email-shape test `/^[^\s@]+@[^\s@]+\.[^\s@]+$/.test(s)` used both
by `_validateMessage` and by `_isValidEmail`. -/
def matchesEmailShape (s : List Char) : Bool :=
  match s.dropWhile (fun c => c != '@') with
  | [] => false
  | _ :: rest =>
    let localPart := s.takeWhile (fun c => c != '@')
    !localPart.isEmpty && localPart.all addrChar &&
      rest.all addrChar && hasInnerDot rest

/-- The decoded message object, restricted to the three fields the
validator reads; each field is absent (`none`) or holds a JS value. -/
structure MessageData where
  toField : Option JSValue
  subjectField : Option JSValue
  messageField : Option JSValue
deriving DecidableEq

/-- The three required field names of the wire format. -/
inductive FieldName where
  | toF
  | subjectF
  | messageF
deriving DecidableEq

/-- The kind of per-field check failure, in the order the code tests:
`!messageData[field]` (missing), `typeof !== "string"` (wrongType), empty
after trim (empty). -/
inductive FieldErrKind where
  | missing
  | wrongType
  | empty
deriving DecidableEq

/-- The validation errors `_validateMessage` can throw. -/
inductive ValidationError where
  | fieldErr (f : FieldName) (k : FieldErrKind)
  | invalidAddress (s : List Char)
deriving DecidableEq

/-- The three checks `_validateMessage` runs on one field, in source
order: `!messageData[field]` throws the missing-field error (a JS
truthiness test, not a presence test), then the string-type test, then
the trimmed-emptiness test. -/
def checkFieldKind : Option JSValue → Option FieldErrKind
  | none => some .missing
  | some v =>
    if !truthy v then some .missing
    else
      match v with
      | .str s => if (strTrim s).isEmpty then some .empty else none
      | _ => some .wrongType

/-- Read a field as the string the later pipeline stages use (only
reached when the field passed validation, hence holds a string). -/
def getStr : Option JSValue → List Char
  | some (.str s) => s
  | _ => []

/-- `_validateMessage`: check `to`, then `subject`, then `message`
(first failure wins), then test `to` against the email regex. Returns
`none` on success, `some e` for the error thrown. -/
def validateMessage (m : MessageData) : Option ValidationError :=
  match checkFieldKind m.toField with
  | some k => some (.fieldErr .toF k)
  | none =>
    match checkFieldKind m.subjectField with
    | some k => some (.fieldErr .subjectF k)
    | none =>
      match checkFieldKind m.messageField with
      | some k => some (.fieldErr .messageF k)
      | none =>
        if matchesEmailShape (getStr m.toField) then none
        else some (.invalidAddress (getStr m.toField))

example : matchesEmailShape (String.toList "a@b.com") = true := by decide
example : matchesEmailShape (String.toList "not-an-email") = false := by decide
example : matchesEmailShape (String.toList "a@b.") = false := by decide
example : matchesEmailShape (String.toList "a@.b") = false := by decide
example : matchesEmailShape (String.toList "a@b c.d") = false := by decide
example : matchesEmailShape (String.toList "a@b@c.d") = false := by decide
example : matchesEmailShape (String.toList "a.b@c.d.e") = true := by decide
example :
    validateMessage ⟨some (.str (String.toList "a@b.com")),
      some (.str (String.toList "Hi")), some (.str (String.toList "hello"))⟩ = none := by
  decide
example :
    validateMessage ⟨some (.num 0), some (.str (String.toList "Hi")),
      some (.str (String.toList "hello"))⟩ = some (.fieldErr .toF .missing) := by
  decide
example :
    validateMessage ⟨some (.str []), some (.str (String.toList "Hi")),
      some (.str (String.toList "hello"))⟩ = some (.fieldErr .toF .missing) := by
  decide
example :
    validateMessage ⟨some (.str [' ']), some (.str (String.toList "Hi")),
      some (.str (String.toList "hello"))⟩ = some (.fieldErr .toF .empty) := by
  decide

deriving instance DecidableEq for Except

/-- One backend call as the dispatcher observes it: how long the
`transporter.sendMail` callback takes to come back (milliseconds) and
whether it reports an error or a message id. -/
structure BackendCall where
  dur : Nat
  res : Except String String
deriving DecidableEq

/-- The behaviour of the delivery backend: what the k-th call
(1-indexed attempt number) does. -/
abbrev Backend := Nat → BackendCall

/-- Errors `sendEmail` can throw before or after the retry loop. -/
inductive SendErr where
  | notInitialized
  | invalidRecipient
  | emptySubject
  | emptyMessage
  | backendErr (e : String)
deriving DecidableEq

/-- Observable outcome of one `sendEmail` run: number of backend calls
made, the waits performed between attempts (in order), the elapsed
milliseconds when the returned promise settles, and the settled value
(message id with the successful attempt number, or the thrown error). -/
structure SendOut where
  calls : Nat
  waits : List Nat
  endTime : Nat
  result : Except SendErr (String × Nat)
deriving DecidableEq

/-- The retry loop of `sendEmail` (`for attempt = 1..retryAttempts`):
run the current attempt; on success resolve with that attempt number; on
error, if this was the last attempt rethrow it, otherwise wait
`retryDelay * attempt` and continue. `fuel` counts the attempts still
allowed including the current one (so `fuel = 1` means this is the last
attempt); `t` is the elapsed time at the start of the current attempt. -/
def retryLoop (beh : Backend) (delay : Nat) : Nat → Nat → Nat → SendOut
  | 0, _, t => ⟨0, [], t, .error .notInitialized⟩
  | fuel + 1, attempt, t =>
    let c := beh attempt
    match c.res with
    | .ok mid => ⟨1, [], t + c.dur, .ok (mid, attempt)⟩
    | .error e =>
      if fuel = 0 then ⟨1, [], t + c.dur, .error (.backendErr e)⟩
      else
        let w := delay * attempt
        let r := retryLoop beh delay fuel (attempt + 1) (t + c.dur + w)
        ⟨r.calls + 1, w :: r.waits, r.endTime, r.result⟩

/-- `EmailService.sendEmail(to, subject, message)`: throw if not
initialized, validate the parameters (`_validateEmailParams`), then run
the retry loop with `retryAttempts = 3` and `retryDelay = 1000`. -/
def sendEmail (isInitialized : Bool) (toAddr subject message : List Char)
    (beh : Backend) : SendOut :=
  if !isInitialized then ⟨0, [], 0, .error .notInitialized⟩
  else if toAddr.isEmpty || !matchesEmailShape toAddr then
    ⟨0, [], 0, .error .invalidRecipient⟩
  else if subject.isEmpty || (strTrim subject).isEmpty then
    ⟨0, [], 0, .error .emptySubject⟩
  else if message.isEmpty || (strTrim message).isEmpty then
    ⟨0, [], 0, .error .emptyMessage⟩
  else retryLoop beh 1000 3 1 0

/-- How `_sendEmailWithTimeout` settles: with the awaited `sendEmail`
result when it arrives before the timer, or with the timeout rejection
fired at `messageProcessingTimeout` (any later result is discarded). -/
inductive TimedResult where
  | resolved (r : Except SendErr (String × Nat)) (t : Nat)
  | timedOut (t : Nat)
deriving DecidableEq

/-- `_sendEmailWithTimeout`: one `setTimeout` of 30000 ms armed when the
dispatch starts, racing the whole `sendEmail` call (all attempts and
waits). Also returns the number of backend calls the inner loop makes. -/
def sendEmailWithTimeout (isInitialized : Bool) (toAddr subject message : List Char)
    (beh : Backend) : TimedResult × Nat :=
  let s := sendEmail isInitialized toAddr subject message beh
  (if s.endTime < 30000 then .resolved s.result s.endTime else .timedOut 30000,
    s.calls)

/-- Total duration of the first `n` backend calls. -/
def sumDurs (beh : Backend) : Nat → Nat
  | 0 => 0
  | n + 1 => sumDurs beh n + (beh (n + 1)).dur

/-- Outcome of a dispatch in the specification's vocabulary. -/
inductive SpecOutcome where
  | delivered (mid : String) (attempt : Nat)
  | failing (lastErr : String) (attempts : Nat)
  | timedOutAttempt (attempts : Nat)
deriving DecidableEq

/-- Modelled from the spec (§4.2), for comparison with the code: each
attempt is wrapped in its own 30-second timeout measured from that
attempt's start; a timed-out attempt counts as a failed attempt and the
next attempt (if the 3-attempt budget remains) still proceeds. -/
def specAttemptResult (beh : Backend) (k : Nat) : Except String String :=
  if 30000 ≤ (beh k).dur then .error "attempt timeout" else (beh k).res

/-- Modelled from the spec (§4.2): the dispatcher under a per-attempt
timeout, 3 attempts, returning the last attempt's error when all fail. -/
def specPerAttemptDispatch (beh : Backend) : SpecOutcome :=
  match specAttemptResult beh 1 with
  | .ok m => .delivered m 1
  | .error _ =>
    match specAttemptResult beh 2 with
    | .ok m => .delivered m 2
    | .error _ =>
      match specAttemptResult beh 3 with
      | .ok m => .delivered m 3
      | .error e =>
        if 30000 ≤ (beh 3).dur then .timedOutAttempt 3 else .failing e 3

/-- A backend on which every call takes 12 seconds and fails: no single
attempt reaches the 30-second limit, but the three attempts plus the two
waits total 39 seconds. -/
def behSlow : Backend := fun _ => ⟨12000, .error "connection reset"⟩

example :
    sendEmail true (String.toList "a@b.com") (String.toList "Hi")
      (String.toList "hello") behSlow =
      ⟨3, [1000, 2000], 39000, .error (.backendErr "connection reset")⟩ := by
  decide

example :
    (sendEmailWithTimeout true (String.toList "a@b.com") (String.toList "Hi")
      (String.toList "hello") behSlow).1 = .timedOut 30000 := by
  decide

example :
    specPerAttemptDispatch behSlow = .failing "connection reset" 3 := by
  decide

/-- Whether the list contains a `>` character. -/
def hasGt : List Char → Bool
  | [] => false
  | c :: rest => if c = '>' then true else hasGt rest

/-- `_isHtmlContent`: whether `/<[^>]*>/` matches somewhere in the
content; the pattern has a match exactly when some `<` is followed (at
any distance) by a `>`, the pattern then ending at the first such `>`. -/
def isHtmlContent : List Char → Bool
  | [] => false
  | c :: rest => (if c = '<' then hasGt rest else false) || isHtmlContent rest

/-- Drop characters up to and including the first `>`; `none` when the
list has no `>` (so the regex `<[^>]*>` has no match starting here). -/
def dropThroughGt : List Char → Option (List Char)
  | [] => none
  | c :: rest => if c = '>' then some rest else dropThroughGt rest

/-- Fueled worker for `stripHtml`: each `<` that has a later `>` starts a
match of `<[^>]*>` ending at the first such `>`; the match is deleted and
scanning resumes after it. Fuel bounds the recursion; `stripHtml` passes
the list length, which always suffices. -/
def stripHtmlGo : Nat → List Char → List Char
  | 0, s => s
  | fuel + 1, s =>
    match s with
    | [] => []
    | c :: rest =>
      if c = '<' then
        match dropThroughGt rest with
        | some after => stripHtmlGo fuel after
        | none => c :: stripHtmlGo fuel rest
      else c :: stripHtmlGo fuel rest

/-- `_stripHtml`: `html.replace(/<[^>]*>/g, "")`. -/
def stripHtml (s : List Char) : List Char :=
  stripHtmlGo s.length s

/-- First step of `_convertToHtml`: `text.replace(/\n/g, "<br>")`. -/
def replaceNl : List Char → List Char
  | [] => []
  | c :: rest => (if c = '\n' then String.toList "<br>" else [c]) ++ replaceNl rest

/-- Second step of `_convertToHtml`: `.replace(/  /g, "&nbsp;&nbsp;")`,
replacing each non-overlapping pair of consecutive spaces left to
right. -/
def replaceDoubleSpace : List Char → List Char
  | ' ' :: ' ' :: rest => String.toList "&nbsp;&nbsp;" ++ replaceDoubleSpace rest
  | c :: rest => c :: replaceDoubleSpace rest
  | [] => []

/-- `_convertToHtml`: newline conversion then double-space conversion. -/
def convertToHtml (text : List Char) : List Char :=
  replaceDoubleSpace (replaceNl text)

/-- The `(html, text)` pair of the `emailData` object built by
`sendEmail` from the message body. -/
def buildEmailData (message : List Char) : List Char × List Char :=
  if isHtmlContent message then (message, stripHtml message)
  else (convertToHtml message, message)

example : stripHtml (String.toList "<b>x</b> y") = String.toList "x y" := by decide
example : stripHtml (String.toList "a <    b") = String.toList "a <    b" := by decide
example : convertToHtml (String.toList "a  b") = String.toList "a&nbsp;&nbsp;b" := by decide
example : isHtmlContent (String.toList "a  b") = false := by decide

/-- A record-level error as classified in `_processMessage`: a decode
failure from `_parseMessage`, a validation failure from
`_validateMessage`, a `sendEmail` rejection, or the timeout rejection of
`_sendEmailWithTimeout`. -/
inductive ProcError where
  | decodeError (e : String)
  | validationError (e : ValidationError)
  | sendError (e : SendErr)
  | timeoutError (t : Nat)
deriving DecidableEq

/-- What one processed record leaves behind: the delivered message id and
attempt number, or the error that was caught and logged; plus the number
of backend send calls the record caused. -/
structure ProcOut where
  outcome : Except ProcError (String × Nat)
  calls : Nat
deriving DecidableEq

/-- `_handleProcessingError`: logs the error and returns; it throws
nothing, so the surrounding catch block swallows the record error. -/
def handleProcessingError (_ : ProcError) : Except ProcError Unit :=
  .ok ()

/-- The body of the `try` block of `_processMessage`: parse (modelled by
the given parse result), validate, then dispatch through
`_sendEmailWithTimeout`; the second component counts backend calls. -/
def processBody (isInitialized : Bool) (parsed : Except String MessageData)
    (beh : Backend) : Except ProcError (String × Nat) × Nat :=
  match parsed with
  | .error e => (.error (.decodeError e), 0)
  | .ok m =>
    match validateMessage m with
    | some ve => (.error (.validationError ve), 0)
    | none =>
      let r := sendEmailWithTimeout isInitialized (getStr m.toField)
        (getStr m.subjectField) (getStr m.messageField) beh
      match r.1 with
      | .timedOut t => (.error (.timeoutError t), r.2)
      | .resolved (.error e) _ => (.error (.sendError e), r.2)
      | .resolved (.ok v) _ => (.ok v, r.2)

/-- `_processMessage`: run the body; on error, log and call
`_handleProcessingError`, whose own error (if it had one) would be the
only way for the record error to escape. -/
def processMessage (isInitialized : Bool) (parsed : Except String MessageData)
    (beh : Backend) : Except ProcError ProcOut :=
  match processBody isInitialized parsed beh with
  | (.ok v, calls) => .ok ⟨.ok v, calls⟩
  | (.error e, calls) =>
    match handleProcessingError e with
    | .ok _ => .ok ⟨.error e, calls⟩
    | .error e2 => .error e2

/-- One incoming record, as far as processing depends on it: the result
of `JSON.parse` on its payload and the backend behaviour the dispatch of
this record would observe. -/
abbrev RecordIn := Except String MessageData × Backend

/-- The `eachMessage` consumer loop: records are awaited one at a time,
in order; an error escaping `_processMessage` would abort the run. -/
def runLoop (isInitialized : Bool) : List RecordIn → Except ProcError (List ProcOut)
  | [] => .ok []
  | r :: rs =>
    match processMessage isInitialized r.1 r.2 with
    | .error e => .error e
    | .ok o =>
      match runLoop isInitialized rs with
      | .error e => .error e
      | .ok os => .ok (o :: os)

/-- The side effects shutdown can perform, in the claim's vocabulary. -/
inductive ShutEff where
  | consumerStop
  | backendClose
  | brokerDisconnect
deriving DecidableEq

/-- The mutable fields of `NotificationService` that `shutdown` reads,
plus the consumer's running flag. -/
structure ServiceState where
  isShuttingDown : Bool
  hasNotificationConsumer : Bool
  hasConsumer : Bool
  consumerRunning : Bool
deriving DecidableEq

/-- `NotificationConsumer.stop`: clear the running flag and close the
email service transporter. -/
def consumerStopRun (s : ServiceState) : ServiceState × List ShutEff :=
  ({ s with consumerRunning := false }, [.consumerStop, .backendClose])

/-- `NotificationService.shutdown`: if a shutdown is already in progress
log and return with no effect; otherwise set the flag, stop the
notification consumer (if constructed) and disconnect the Kafka consumer
(if constructed). -/
def shutdown (s : ServiceState) : ServiceState × List ShutEff :=
  if s.isShuttingDown then (s, [])
  else
    let s1 := { s with isShuttingDown := true }
    let p :=
      if s1.hasNotificationConsumer then consumerStopRun s1 else (s1, [])
    let e2 := if p.1.hasConsumer then [ShutEff.brokerDisconnect] else []
    (p.1, p.2 ++ e2)

example :
    shutdown ⟨false, true, true, true⟩ =
      (⟨true, true, true, false⟩, [.consumerStop, .backendClose, .brokerDisconnect]) := by
  decide

example : shutdown ⟨true, true, true, false⟩ = (⟨true, true, true, false⟩, []) := by
  decide

/-! ## Helper lemmas -/

theorem isEmpty_false_of_shape {s : List Char} (h : matchesEmailShape s = true) :
    s.isEmpty = false := by
  cases s with
  | nil => exact absurd h (by decide)
  | cons c cs => rfl

theorem isEmpty_false_of_trim {s : List Char} (h : (strTrim s).isEmpty = false) :
    s.isEmpty = false := by
  cases s with
  | nil => exact absurd h (by decide)
  | cons c cs => rfl

/-- With the service initialized and the three parameters passing
`_validateEmailParams`, `sendEmail` is exactly its retry loop. -/
theorem sendEmail_valid (toAddr subject message : List Char) (beh : Backend)
    (hto : matchesEmailShape toAddr = true)
    (hsub : (strTrim subject).isEmpty = false)
    (hmsg : (strTrim message).isEmpty = false) :
    sendEmail true toAddr subject message beh = retryLoop beh 1000 3 1 0 := by
  simp [sendEmail, isEmpty_false_of_shape hto, hto, isEmpty_false_of_trim hsub,
    hsub, isEmpty_false_of_trim hmsg, hmsg]

/-- The retry loop resolves exactly when the durations of the calls it
made plus the waits it performed have elapsed. -/
theorem retryLoop_endTime (beh : Backend) :
    (retryLoop beh 1000 3 1 0).endTime =
      sumDurs beh (retryLoop beh 1000 3 1 0).calls +
        (retryLoop beh 1000 3 1 0).waits.sum := by
  rcases h1 : (beh 1).res with e1 | m1 <;>
    rcases h2 : (beh 2).res with e2 | m2 <;>
      rcases h3 : (beh 3).res with e3 | m3 <;>
        simp [retryLoop, h1, h2, h3, sumDurs] <;> omega

/-- `sendEmail` resolves exactly when the durations of the backend calls
it made plus the waits it performed have elapsed (its parameter checks
take no time). -/
theorem sendEmail_endTime (isInitialized : Bool) (toAddr subject message : List Char)
    (beh : Backend) :
    (sendEmail isInitialized toAddr subject message beh).endTime =
      sumDurs beh (sendEmail isInitialized toAddr subject message beh).calls +
        (sendEmail isInitialized toAddr subject message beh).waits.sum := by
  unfold sendEmail
  split
  · rfl
  · split
    · rfl
    · split
      · rfl
      · split
        · rfl
        · exact retryLoop_endTime beh

theorem checkFieldKind_falsy {v : JSValue} (h : truthy v = false) :
    checkFieldKind (some v) = some .missing := by
  simp [checkFieldKind, h]

theorem checkFieldKind_wrongType {v : JSValue} (ht : truthy v = true)
    (hs : isStrVal v = false) :
    checkFieldKind (some v) = some .wrongType := by
  cases v <;> simp_all [checkFieldKind, truthy, isStrVal]

theorem checkFieldKind_emptyStr {s : List Char} (hne : s ≠ [])
    (ht : strTrim s = []) :
    checkFieldKind (some (.str s)) = some .empty := by
  cases s with
  | nil => exact absurd rfl hne
  | cons c cs => simp [checkFieldKind, truthy, ht]

theorem validateMessage_toErr {m : MessageData} {k : FieldErrKind}
    (h : checkFieldKind m.toField = some k) :
    validateMessage m = some (.fieldErr .toF k) := by
  simp [validateMessage, h]

theorem validateMessage_subjectErr {m : MessageData} {k : FieldErrKind}
    (h0 : checkFieldKind m.toField = none)
    (h : checkFieldKind m.subjectField = some k) :
    validateMessage m = some (.fieldErr .subjectF k) := by
  simp [validateMessage, h0, h]

theorem validateMessage_messageErr {m : MessageData} {k : FieldErrKind}
    (h0 : checkFieldKind m.toField = none)
    (h1 : checkFieldKind m.subjectField = none)
    (h : checkFieldKind m.messageField = some k) :
    validateMessage m = some (.fieldErr .messageF k) := by
  simp [validateMessage, h0, h1, h]

/-- `_processMessage` never lets a record error escape: whatever the
body does, the catch block and `_handleProcessingError` swallow it. -/
theorem processMessage_ok (isInitialized : Bool) (parsed : Except String MessageData)
    (beh : Backend) :
    ∃ o, processMessage isInitialized parsed beh = Except.ok o := by
  unfold processMessage
  rcases hpb : processBody isInitialized parsed beh with ⟨res, calls⟩
  cases res with
  | ok v => exact ⟨⟨.ok v, calls⟩, rfl⟩
  | error e => exact ⟨⟨.error e, calls⟩, rfl⟩

theorem hasGt_iff (l : List Char) :
    hasGt l = true ↔ ∃ j, l.get? j = some '>' := by
  induction l with
  | nil => simp [hasGt]
  | cons c rest ih =>
    by_cases hc : c = '>'
    · subst hc
      simp [hasGt]
      exact ⟨0, by simp⟩
    · simp only [hasGt, if_neg hc, ih]
      constructor
      · rintro ⟨j, hj⟩
        exact ⟨j + 1, by simpa using hj⟩
      · rintro ⟨j, hj⟩
        cases j with
        | zero => simp at hj; exact absurd hj hc
        | succ j' => exact ⟨j', by simpa using hj⟩

/-- `_isHtmlContent` is exactly the existence of a `<` followed, at any
distance, by a `>` (the shape of a `/<[^>]*>/` match). -/
theorem isHtmlContent_iff (s : List Char) :
    isHtmlContent s = true ↔
      ∃ i j, i < j ∧ s.get? i = some '<' ∧ s.get? j = some '>' := by
  induction s with
  | nil => simp [isHtmlContent]
  | cons c rest ih =>
    simp only [isHtmlContent, Bool.or_eq_true]
    constructor
    · rintro (h | h)
      · by_cases hc : c = '<'
        · rw [if_pos hc] at h
          obtain ⟨j, hj⟩ := (hasGt_iff rest).mp h
          exact ⟨0, j + 1, Nat.succ_pos j, by simpa using hc, by simpa using hj⟩
        · rw [if_neg hc] at h
          exact absurd h (by decide)
      · obtain ⟨i, j, hij, hi, hj⟩ := ih.mp h
        exact ⟨i + 1, j + 1, by omega, by simpa using hi, by simpa using hj⟩
    · rintro ⟨i, j, hij, hi, hj⟩
      cases i with
      | zero =>
        left
        have hc : c = '<' := by simpa using hi
        rw [if_pos hc]
        cases j with
        | zero => omega
        | succ j' =>
          exact (hasGt_iff rest).mpr ⟨j', by simpa using hj⟩
      | succ i' =>
        right
        cases j with
        | zero => omega
        | succ j' =>
          exact ih.mpr ⟨i', j', by omega, by simpa using hi, by simpa using hj⟩

/-! ## Claim theorems -/

/-- Claim C1, counterexample: the 30-second timeout is not per attempt.
On a backend where every call takes 12 seconds and fails, no single
attempt reaches 30 seconds — under the claimed per-attempt timeout the
dispatch would run all 3 attempts and fail with the backend error — yet
the code's dispatcher, whose single timer covers the whole retry loop,
rejects with the timeout at 30 seconds. -/
theorem c1_counterexample :
    (sendEmailWithTimeout true (String.toList "a@b.com") (String.toList "Hi")
        (String.toList "hello") behSlow).1 = .timedOut 30000 ∧
      (behSlow 1).dur < 30000 ∧ (behSlow 2).dur < 30000 ∧ (behSlow 3).dur < 30000 ∧
      specPerAttemptDispatch behSlow = .failing "connection reset" 3 := by
  decide

/-- Claim C1, amended: in `_sendEmailWithTimeout` one 30-second timer,
armed when the dispatch starts, covers the whole `sendEmail` call — all
backend attempts plus the inter-attempt waits. The dispatch resolves with
the retry loop's result only if the total elapsed time (sum of the made
calls' durations plus the performed waits) stays below 30000 ms;
otherwise the whole dispatch is recorded as failed with the timeout
rejection at 30000 ms and the loop's eventual result is discarded. -/
theorem c1_amended (isInitialized : Bool) (toAddr subject message : List Char)
    (beh : Backend) :
    (sendEmail isInitialized toAddr subject message beh).endTime =
        sumDurs beh (sendEmail isInitialized toAddr subject message beh).calls +
          (sendEmail isInitialized toAddr subject message beh).waits.sum ∧
      (sendEmailWithTimeout isInitialized toAddr subject message beh).1 =
        (if (sendEmail isInitialized toAddr subject message beh).endTime < 30000 then
          .resolved (sendEmail isInitialized toAddr subject message beh).result
            (sendEmail isInitialized toAddr subject message beh).endTime
        else .timedOut 30000) :=
  ⟨sendEmail_endTime isInitialized toAddr subject message beh, rfl⟩

/-- Claim C2: on a valid, initialized dispatch whose backend fails on
every call, `sendEmail` makes exactly 3 backend calls, waits 1000 ms
after attempt 1 and 2000 ms after attempt 2 (and nothing after the final
attempt), and throws the last backend error. -/
theorem c2_theorem (toAddr subject message : List Char) (beh : Backend)
    (errs : Nat → String)
    (hto : matchesEmailShape toAddr = true)
    (hsub : (strTrim subject).isEmpty = false)
    (hmsg : (strTrim message).isEmpty = false)
    (hbeh : ∀ k, (beh k).res = .error (errs k)) :
    (sendEmail true toAddr subject message beh).calls = 3 ∧
      (sendEmail true toAddr subject message beh).waits = [1000, 2000] ∧
      (sendEmail true toAddr subject message beh).result =
        .error (.backendErr (errs 3)) := by
  rw [sendEmail_valid toAddr subject message beh hto hsub hmsg]
  simp [retryLoop, hbeh 1, hbeh 2, hbeh 3]

/-- A backend that fails every call with the same SMTP error. -/
def behAllFail : Backend := fun _ => ⟨5, .error "smtp 550"⟩

/-- Witness for C2 at a concrete valid request and all-failing backend. -/
theorem c2_witness :
    (sendEmail true (String.toList "a@b.com") (String.toList "Hi")
        (String.toList "hello") behAllFail).calls = 3 ∧
      (sendEmail true (String.toList "a@b.com") (String.toList "Hi")
        (String.toList "hello") behAllFail).waits = [1000, 2000] ∧
      (sendEmail true (String.toList "a@b.com") (String.toList "Hi")
        (String.toList "hello") behAllFail).result =
        .error (.backendErr "smtp 550") :=
  c2_theorem _ _ _ behAllFail (fun _ => "smtp 550") (by decide) (by decide)
    (by decide) (fun _ => rfl)

/-- Claim C3: for every list of incoming records — whatever each record's
parse result, validation outcome or backend behaviour — the consumer loop
completes with one recorded outcome per record; no record-level error
escapes `_processMessage`, so processing of subsequent records always
continues. -/
theorem c3_theorem (isInitialized : Bool) (recs : List RecordIn) :
    ∃ outs, runLoop isInitialized recs = .ok outs ∧ outs.length = recs.length := by
  induction recs with
  | nil => exact ⟨[], rfl, rfl⟩
  | cons r rs ih =>
    obtain ⟨o, ho⟩ := processMessage_ok isInitialized r.1 r.2
    obtain ⟨outs, houts, hlen⟩ := ih
    refine ⟨o :: outs, ?_, by simp [hlen]⟩
    unfold runLoop
    rw [ho, houts]

/-- Claim C4, counterexample: a `to` field that is present and holds the
number `0` — a non-string value — is rejected by the code's JS falsy test
`!messageData[field]` with the missing-field error, not with the claimed
type-mismatch error. -/
theorem c4_counterexample :
    validateMessage ⟨some (.num 0), some (.str (String.toList "Hi")),
        some (.str (String.toList "hello"))⟩ = some (.fieldErr .toF .missing) ∧
      ValidationError.fieldErr .toF .missing ≠ ValidationError.fieldErr .toF .wrongType := by
  decide

/-- Claim C4, amended: for each required field (in check order `to`,
`subject`, `message`): an absent field — and likewise a present field
holding a JS-falsy value such as `0`, `false` or `""` — yields the
missing-field error naming that field, while a present field holding a
truthy non-string value yields the distinct type-mismatch error. -/
theorem c4_amended (m : MessageData) :
    (m.toField = none → validateMessage m = some (.fieldErr .toF .missing)) ∧
      (∀ v, m.toField = some v → truthy v = false →
        validateMessage m = some (.fieldErr .toF .missing)) ∧
      (∀ v, m.toField = some v → truthy v = true → isStrVal v = false →
        validateMessage m = some (.fieldErr .toF .wrongType)) ∧
      (checkFieldKind m.toField = none → m.subjectField = none →
        validateMessage m = some (.fieldErr .subjectF .missing)) ∧
      (∀ v, checkFieldKind m.toField = none → m.subjectField = some v →
        truthy v = false →
        validateMessage m = some (.fieldErr .subjectF .missing)) ∧
      (∀ v, checkFieldKind m.toField = none → m.subjectField = some v →
        truthy v = true → isStrVal v = false →
        validateMessage m = some (.fieldErr .subjectF .wrongType)) ∧
      (checkFieldKind m.toField = none → checkFieldKind m.subjectField = none →
        m.messageField = none →
        validateMessage m = some (.fieldErr .messageF .missing)) ∧
      (∀ v, checkFieldKind m.toField = none → checkFieldKind m.subjectField = none →
        m.messageField = some v → truthy v = false →
        validateMessage m = some (.fieldErr .messageF .missing)) ∧
      (∀ v, checkFieldKind m.toField = none → checkFieldKind m.subjectField = none →
        m.messageField = some v → truthy v = true → isStrVal v = false →
        validateMessage m = some (.fieldErr .messageF .wrongType)) := by
  refine ⟨?_, ?_, ?_, ?_, ?_, ?_, ?_, ?_, ?_⟩
  · intro h
    exact validateMessage_toErr (by rw [h]; rfl)
  · intro v hv hf
    exact validateMessage_toErr (by rw [hv]; exact checkFieldKind_falsy hf)
  · intro v hv ht hs
    exact validateMessage_toErr (by rw [hv]; exact checkFieldKind_wrongType ht hs)
  · intro h0 h
    exact validateMessage_subjectErr h0 (by rw [h]; rfl)
  · intro v h0 hv hf
    exact validateMessage_subjectErr h0 (by rw [hv]; exact checkFieldKind_falsy hf)
  · intro v h0 hv ht hs
    exact validateMessage_subjectErr h0
      (by rw [hv]; exact checkFieldKind_wrongType ht hs)
  · intro h0 h1 h
    exact validateMessage_messageErr h0 h1 (by rw [h]; rfl)
  · intro v h0 h1 hv hf
    exact validateMessage_messageErr h0 h1
      (by rw [hv]; exact checkFieldKind_falsy hf)
  · intro v h0 h1 hv ht hs
    exact validateMessage_messageErr h0 h1
      (by rw [hv]; exact checkFieldKind_wrongType ht hs)

/-- Witness for C4 at concrete objects: a `to` holding the truthy number
`5` produces the type-mismatch error, and a `subject` holding the falsy
number `0` produces the missing-field error naming `subject`. -/
theorem c4_witness :
    validateMessage ⟨some (.num 5), some (.str (String.toList "Hi")),
        some (.str (String.toList "hello"))⟩ = some (.fieldErr .toF .wrongType) ∧
      validateMessage ⟨some (.str (String.toList "a@b.com")), some (.num 0),
        some (.str (String.toList "hello"))⟩ = some (.fieldErr .subjectF .missing) :=
  ⟨(c4_amended _).2.2.1 (.num 5) rfl (by decide) (by decide),
    (c4_amended _).2.2.2.2.1 (.num 0) (by decide) rfl (by decide)⟩

/-- Claim C5, counterexample: a `to` field present as the empty string —
a string trimming to zero length — is rejected by the JS falsy test with
the missing-field error, not with the claimed empty-field error. -/
theorem c5_counterexample :
    validateMessage ⟨some (.str []), some (.str (String.toList "Hi")),
        some (.str (String.toList "hello"))⟩ = some (.fieldErr .toF .missing) ∧
      validateMessage ⟨some (.str []), some (.str (String.toList "Hi")),
        some (.str (String.toList "hello"))⟩ ≠ some (.fieldErr .toF .empty) := by
  decide

/-- Claim C5, amended: a required field present as a NON-empty string
that trims to zero length (whitespace only) is rejected with the
empty-field error naming that field, not the missing-field error; the
empty string itself instead trips the falsy test and yields the
missing-field error. -/
theorem c5_amended (m : MessageData) (s : List Char) :
    (m.toField = some (.str s) → s ≠ [] → strTrim s = [] →
        validateMessage m = some (.fieldErr .toF .empty)) ∧
      (m.toField = some (.str []) →
        validateMessage m = some (.fieldErr .toF .missing)) ∧
      (checkFieldKind m.toField = none → m.subjectField = some (.str s) →
        s ≠ [] → strTrim s = [] →
        validateMessage m = some (.fieldErr .subjectF .empty)) ∧
      (checkFieldKind m.toField = none → checkFieldKind m.subjectField = none →
        m.messageField = some (.str s) → s ≠ [] → strTrim s = [] →
        validateMessage m = some (.fieldErr .messageF .empty)) := by
  refine ⟨?_, ?_, ?_, ?_⟩
  · intro hv hne ht
    exact validateMessage_toErr (by rw [hv]; exact checkFieldKind_emptyStr hne ht)
  · intro hv
    exact validateMessage_toErr (by rw [hv]; rfl)
  · intro h0 hv hne ht
    exact validateMessage_subjectErr h0
      (by rw [hv]; exact checkFieldKind_emptyStr hne ht)
  · intro h0 h1 hv hne ht
    exact validateMessage_messageErr h0 h1
      (by rw [hv]; exact checkFieldKind_emptyStr hne ht)

/-- Witness for C5 at a concrete object whose `subject` is a single
space: the empty-field error names `subject`. -/
theorem c5_witness :
    validateMessage ⟨some (.str (String.toList "a@b.com")), some (.str [' ']),
        some (.str (String.toList "hello"))⟩ = some (.fieldErr .subjectF .empty) :=
  (c5_amended _ [' ']).2.2.1 (by decide) rfl (by decide) (by decide)

/-- Claim C6, counterexample: `" "` is a non-empty string that does not
match the address shape, yet validation rejects it with the empty-field
error (the trim check fires first), not with the claimed
InvalidAddressFormat error. -/
theorem c6_counterexample :
    ([' '] : List Char) ≠ [] ∧
      matchesEmailShape [' '] = false ∧
      validateMessage ⟨some (.str [' ']), some (.str (String.toList "Hi")),
        some (.str (String.toList "hello"))⟩ = some (.fieldErr .toF .empty) ∧
      validateMessage ⟨some (.str [' ']), some (.str (String.toList "Hi")),
        some (.str (String.toList "hello"))⟩ ≠ some (.invalidAddress [' ']) := by
  decide

/-- Claim C6, amended: for every decoded object whose three required
fields all pass the per-field presence/type/emptiness checks, if the `to`
string does not match the address-shape regex then validation rejects the
record with the InvalidAddressFormat error carrying that address, and the
record's processing makes no backend send call. -/
theorem c6_amended (m : MessageData) (s : List Char) (isInitialized : Bool)
    (beh : Backend)
    (hto : m.toField = some (.str s))
    (h0 : checkFieldKind m.toField = none)
    (h1 : checkFieldKind m.subjectField = none)
    (h2 : checkFieldKind m.messageField = none)
    (hshape : matchesEmailShape s = false) :
    validateMessage m = some (.invalidAddress s) ∧
      (processBody isInitialized (.ok m) beh).2 = 0 ∧
      (processBody isInitialized (.ok m) beh).1 =
        .error (.validationError (.invalidAddress s)) := by
  have hval : validateMessage m = some (.invalidAddress s) := by
    rw [hto] at h0
    simp [validateMessage, h0, h1, h2, hto, getStr, hshape]
  exact ⟨hval, by simp [processBody, hval], by simp [processBody, hval]⟩

/-- Witness for C6 at the spec's own example `"not-an-email"`. -/
theorem c6_witness :
    validateMessage ⟨some (.str (String.toList "not-an-email")),
        some (.str (String.toList "Hi")), some (.str (String.toList "hello"))⟩ =
        some (.invalidAddress (String.toList "not-an-email")) ∧
      (processBody true
        (.ok ⟨some (.str (String.toList "not-an-email")),
          some (.str (String.toList "Hi")), some (.str (String.toList "hello"))⟩)
        behAllFail).2 = 0 ∧
      (processBody true
        (.ok ⟨some (.str (String.toList "not-an-email")),
          some (.str (String.toList "Hi")), some (.str (String.toList "hello"))⟩)
        behAllFail).1 =
        .error (.validationError (.invalidAddress (String.toList "not-an-email"))) :=
  c6_amended _ _ true behAllFail rfl (by decide) (by decide) (by decide) (by decide)

/-- Claim C7: on a valid, initialized dispatch whose backend fails on
call 1 and succeeds on call 2, `sendEmail` returns the success result
carrying attempt number 2 and makes exactly 2 backend calls. -/
theorem c7_theorem (toAddr subject message : List Char) (beh : Backend)
    (e1 mid : String)
    (hto : matchesEmailShape toAddr = true)
    (hsub : (strTrim subject).isEmpty = false)
    (hmsg : (strTrim message).isEmpty = false)
    (h1 : (beh 1).res = .error e1)
    (h2 : (beh 2).res = .ok mid) :
    (sendEmail true toAddr subject message beh).result = .ok (mid, 2) ∧
      (sendEmail true toAddr subject message beh).calls = 2 := by
  rw [sendEmail_valid toAddr subject message beh hto hsub hmsg]
  simp [retryLoop, h1, h2]

/-- A backend that fails the first call and succeeds from the second. -/
def behFailThenOk : Backend :=
  fun k => if k = 1 then ⟨5, .error "transient"⟩ else ⟨5, .ok "id-2"⟩

/-- Witness for C7 at a concrete request and fail-then-succeed backend. -/
theorem c7_witness :
    (sendEmail true (String.toList "a@b.com") (String.toList "Hi")
        (String.toList "hello") behFailThenOk).result = .ok ("id-2", 2) ∧
      (sendEmail true (String.toList "a@b.com") (String.toList "Hi")
        (String.toList "hello") behFailThenOk).calls = 2 :=
  c7_theorem _ _ _ behFailThenOk "transient" "id-2" (by decide) (by decide)
    (by decide) (by decide) (by decide)

/-- Claim C8: from a state where no shutdown has begun and both the
notification consumer and the Kafka consumer exist, calling `shutdown`
twice performs the consumer stop, backend close and broker disconnect
exactly once — all in the first call — while the second call sees the
`isShuttingDown` flag, changes nothing and performs no effect. -/
theorem c8_theorem (s : ServiceState)
    (h0 : s.isShuttingDown = false)
    (h1 : s.hasNotificationConsumer = true)
    (h2 : s.hasConsumer = true) :
    (shutdown s).2 = [.consumerStop, .backendClose, .brokerDisconnect] ∧
      (shutdown (shutdown s).1).2 = [] ∧
      (shutdown (shutdown s).1).1 = (shutdown s).1 := by
  obtain ⟨a, b, c, d⟩ := s
  simp only at h0 h1 h2
  subst h0 h1 h2
  cases d <;> decide

/-- Witness for C8 at the fully-constructed running service state. -/
theorem c8_witness :
    (shutdown ⟨false, true, true, true⟩).2 =
        [.consumerStop, .backendClose, .brokerDisconnect] ∧
      (shutdown (shutdown ⟨false, true, true, true⟩).1).2 = [] ∧
      (shutdown (shutdown ⟨false, true, true, true⟩).1).1 =
        (shutdown ⟨false, true, true, true⟩).1 :=
  c8_theorem ⟨false, true, true, true⟩ rfl rfl rfl

/-- Claim C9, counterexample: the body `"a  b"` contains no HTML tag
pattern, so per the claim its HTML part should be the body with newlines
converted to `<br>` — which, having no newlines, is the body unchanged —
but the code also rewrites the double space, producing
`"a&nbsp;&nbsp;b"`. -/
theorem c9_counterexample :
    isHtmlContent (String.toList "a  b") = false ∧
      replaceNl (String.toList "a  b") = String.toList "a  b" ∧
      (buildEmailData (String.toList "a  b")).1 ≠ replaceNl (String.toList "a  b") ∧
      (buildEmailData (String.toList "a  b")).1 = String.toList "a&nbsp;&nbsp;b" := by
  decide

/-- Claim C9, amended: if the body contains an HTML tag pattern (i.e.
some `<` followed by a `>`, the shape of a `/<[^>]*>/` match), the HTML
part is the body unchanged and the text part is the body with all tag
patterns stripped; otherwise the text part is the body unchanged and the
HTML part is the body with newlines converted to `<br>` AND each
non-overlapping pair of consecutive spaces converted to
`&nbsp;&nbsp;`. -/
theorem c9_theorem (message : List Char) :
    (isHtmlContent message = true ↔
        ∃ i j, i < j ∧ message.get? i = some '<' ∧ message.get? j = some '>') ∧
      (isHtmlContent message = true →
        buildEmailData message = (message, stripHtml message)) ∧
      (isHtmlContent message = false →
        buildEmailData message = (replaceDoubleSpace (replaceNl message), message)) := by
  refine ⟨isHtmlContent_iff message, fun h => ?_, fun h => ?_⟩
  · simp [buildEmailData, h]
  · simp [buildEmailData, h, convertToHtml]

/-- Witness for C9 at a concrete HTML body. -/
theorem c9_witness :
    buildEmailData (String.toList "<b>hello</b>") =
      (String.toList "<b>hello</b>", String.toList "hello") :=
  ((c9_theorem (String.toList "<b>hello</b>")).2.1 (by decide)).trans (by decide)

/-- Claim C10: calling `sendEmail` while the service is not initialized
throws the not-initialized error with no backend call, no wait and no
elapsed time, whatever the parameters and backend; the dispatch wrapper
then resolves immediately with that same rejection. -/
theorem c10_theorem (toAddr subject message : List Char) (beh : Backend) :
    sendEmail false toAddr subject message beh =
        ⟨0, [], 0, .error .notInitialized⟩ ∧
      sendEmailWithTimeout false toAddr subject message beh =
        (.resolved (.error .notInitialized) 0, 0) :=
  ⟨rfl, rfl⟩

end Notif
